import Mathlib

/-!
Verification of the authentication core of `tokendito` (`tokendito/okta.py`)
against its natural-language design specification.

The Python source is shallowly embedded: each relevant Python function becomes
a pure Lean function over explicit data.  Network responses, user interaction
and randomness are passed in as parameters (the source obtains them from its
HTTP client, prompts, and `os.urandom`); `sys.exit` calls become explicit
error values; Python dictionaries become association lists or records with
`Option` fields; an uncaught Python exception (such as `KeyError`) is a
distinguished outcome, kept apart from a deliberate `sys.exit`.
-/

namespace Tokendito

/-! ## Push-approval polling engine (`push_approval`, okta.py lines 1122-1187)

A poll response is the JSON body returned by re-posting the challenge payload.
The fields the source reads are `status`, `factorResult`, `sessionToken`, and
the deeply nested number-challenge `correctAnswer`; each may be absent.
`correctAnswer` is a JSON number in the provider's API, and the source tests
it with Python truthiness (`if answer`), under which `0` is falsy. -/

structure PollResponse where
  status : Option String
  factorResult : Option String
  sessionToken : Option String
  correctAnswer : Option Nat
  deriving DecidableEq, Repr

/-- `response.get("status", "UNKNOWN")` -/
def statusOf (r : PollResponse) : String := r.status.getD "UNKNOWN"

/-- `response.get("factorResult", "UNKNOWN")` -/
def resultOf (r : PollResponse) : String := r.factorResult.getD "UNKNOWN"

/-- The `while` condition of the polling loop:
`status == "MFA_CHALLENGE" and result == "WAITING"`. -/
def isWaiting (r : PollResponse) : Bool :=
  statusOf r == "MFA_CHALLENGE" && resultOf r == "WAITING"

/-- Terminal outcome of `push_approval`: the source either returns the final
response dict (after checking `status == "SUCCESS" and "sessionToken" in
response`) or terminates the process via `sys.exit(2)` on one of three
distinct error paths. -/
inductive PushOutcome where
  /-- `status == "SUCCESS" and "sessionToken" in response`: the response is returned. -/
  | success (r : PollResponse)
  /-- `result == "REJECTED"`: "The Okta Verify push has been denied." -/
  | rejected
  /-- `result == "TIMEOUT"`: "Device approval window has expired." -/
  | timeout
  /-- any other terminal combination: "Push response type ... not implemented." -/
  | unsupported
  deriving DecidableEq, Repr

/-- The `if/elif/elif/else` chain after the polling loop of `push_approval`. -/
def classifyPush (r : PollResponse) : PushOutcome :=
  if statusOf r = "SUCCESS" ∧ r.sessionToken.isSome then .success r
  else if resultOf r = "REJECTED" then .rejected
  else if resultOf r = "TIMEOUT" then .timeout
  else .unsupported

/-- The polling loop of `push_approval`, driven by a scripted list of poll
responses (one per `HTTP_client.post`).  The loop body always runs at least
once because `status`/`result` are initialised to the waiting markers.  It
returns the first response that breaks the waiting condition; `none` means
the script was exhausted while the loop was still waiting (the real loop
would simply keep polling). -/
def pushLoop : List PollResponse → Option PollResponse
  | [] => none
  | r :: rest => if isWaiting r then pushLoop rest else some r

/-- `push_approval` as a whole: run the loop, then classify the final
response.  `none` again means the scripted responses never left the waiting
state. -/
def push_approval (script : List PollResponse) : Option PushOutcome :=
  (pushLoop script).map classifyPush

/-- The number-challenge display behaviour of the polling loop body: `answer`
is truthy and the `challenge_displayed` flag is not yet set.  Returns the list
of numbers printed to the user, in order. -/
def truthyAnswer (r : PollResponse) : Option Nat :=
  match r.correctAnswer with
  | some n => if n ≠ 0 then some n else none
  | none => none

/-- The polling loop again, but tracking the `challenge_displayed` flag and
recording every number-challenge value printed by
`user.print(f"Number Challenge response is ...")`. -/
def pushDisplays (challenge_displayed : Bool) : List PollResponse → List Nat
  | [] => []
  | r :: rest =>
      let shown := if (truthyAnswer r).isSome && !challenge_displayed
                   then (truthyAnswer r).toList else []
      shown ++ (if isWaiting r then
                  pushDisplays (challenge_displayed || (truthyAnswer r).isSome) rest
                else [])

/-- Number-challenge values displayed during one `push_approval` run
(the flag starts out `False`). -/
def push_approval_displays (script : List PollResponse) : List Nat :=
  pushDisplays false script

/-- The responses actually polled during a run: the waiting prefix plus the
first terminal response, if the script reaches one. -/
def processedResponses (script : List PollResponse) : List PollResponse :=
  script.takeWhile isWaiting ++ ((script.dropWhile isWaiting).head?).toList

/-- The polling loop stops exactly at the first response that breaks the
waiting condition. -/
theorem pushLoop_eq_dropWhile (script : List PollResponse) :
    pushLoop script = (script.dropWhile isWaiting).head? := by
  induction script with
  | nil => rfl
  | cons r rest ih =>
      simp only [pushLoop, List.dropWhile_cons]
      by_cases h : isWaiting r
      · simp [h, ih]
      · simp [h]

/-- C3 counterexample: a single terminal response that carries a session
token but whose `status` is absent (defaulting to `"UNKNOWN"`).  The claim
says the engine "returns success when a session token is present"; the code
instead requires `status == "SUCCESS"` as well, and terminates this run with
the unsupported-outcome error (`sys.exit(2)`). -/
theorem C3_counterexample :
    (PollResponse.mk none none (some "tok") none).sessionToken.isSome = true ∧
    push_approval [PollResponse.mk none none (some "tok") none] =
      some PushOutcome.unsupported ∧
    push_approval [PollResponse.mk none none (some "tok") none] ≠
      some (PushOutcome.success (PollResponse.mk none none (some "tok") none)) := by
  decide

/-- C3 (amended): the engine waits exactly while `status` is the
challenge-pending marker and `factorResult` is the waiting marker; the final
response is classified as success exactly when `status = "SUCCESS"` AND a
session token is present, as `PushRejected` exactly when that fails and the
result reports rejection, as `PushTimeout` exactly when the result reports
timeout instead, and as the unsupported outcome for every other terminal
combination. -/
theorem C3_push_state_machine (script : List PollResponse) :
    push_approval script = ((script.dropWhile isWaiting).head?).map classifyPush ∧
    ∀ r : PollResponse,
      (classifyPush r = .success r ↔
        statusOf r = "SUCCESS" ∧ r.sessionToken.isSome) ∧
      (classifyPush r = .rejected ↔
        ¬(statusOf r = "SUCCESS" ∧ r.sessionToken.isSome) ∧
          resultOf r = "REJECTED") ∧
      (classifyPush r = .timeout ↔
        ¬(statusOf r = "SUCCESS" ∧ r.sessionToken.isSome) ∧
          ¬resultOf r = "REJECTED" ∧ resultOf r = "TIMEOUT") ∧
      (classifyPush r = .unsupported ↔
        ¬(statusOf r = "SUCCESS" ∧ r.sessionToken.isSome) ∧
          ¬resultOf r = "REJECTED" ∧ ¬resultOf r = "TIMEOUT") := by
  constructor
  · unfold push_approval
    rw [pushLoop_eq_dropWhile]
  · intro r
    unfold classifyPush
    by_cases h1 : statusOf r = "SUCCESS" ∧ r.sessionToken.isSome <;>
      by_cases h2 : resultOf r = "REJECTED" <;>
        by_cases h3 : resultOf r = "TIMEOUT" <;>
          simp [h1, h2, h3]

/-- Generalisation of the number-challenge display behaviour over the value
of the `challenge_displayed` flag: once the flag is set nothing is ever
displayed again, and while it is unset the displayed values are the first
truthy answer among the responses actually polled. -/
theorem pushDisplays_spec (script : List PollResponse) : ∀ disp : Bool,
    pushDisplays disp script =
      if disp then []
      else ((processedResponses script).filterMap truthyAnswer).take 1 := by
  induction script with
  | nil => intro disp; cases disp <;> simp [pushDisplays, processedResponses]
  | cons r rest ih =>
      intro disp
      cases disp with
      | true =>
          have h1 := ih true
          by_cases hw : isWaiting r <;> simp [pushDisplays, hw, h1]
      | false =>
          by_cases hw : isWaiting r
          · cases ha : truthyAnswer r with
            | some a =>
                have h1 := ih true
                simp [pushDisplays, hw, ha, processedResponses,
                  List.takeWhile_cons, List.dropWhile_cons, h1,
                  List.filterMap_cons]
            | none =>
                have h0 := ih false
                simp [pushDisplays, hw, ha, processedResponses,
                  List.takeWhile_cons, List.dropWhile_cons, h0,
                  List.filterMap_cons]
          · cases ha : truthyAnswer r with
            | some a =>
                simp [pushDisplays, hw, ha, processedResponses,
                  List.takeWhile_cons, List.dropWhile_cons, List.filterMap_cons]
            | none =>
                simp [pushDisplays, hw, ha, processedResponses,
                  List.takeWhile_cons, List.dropWhile_cons, List.filterMap_cons]

/-- C8: during one push-approval polling run the embedded number-challenge
value is surfaced at most once, at the first polled response in which it
appears (with a truthy value); later polled responses never display it
again. -/
theorem C8_number_challenge_once (script : List PollResponse) :
    push_approval_displays script =
      ((processedResponses script).filterMap truthyAnswer).take 1 ∧
    (push_approval_displays script).length ≤ 1 := by
  have h := pushDisplays_spec script false
  simp only [if_neg Bool.false_ne_true] at h
  refine ⟨h, ?_⟩
  unfold push_approval_displays
  rw [h]
  simp [List.length_take]

/-! ## MFA factor selection (`mfa_index`, okta.py lines 1003-1029, and the
label construction of `mfa_challenge`, line 1049) -/

/-- One entry of `primary_auth["_embedded"]["factors"]`: the fields the label
construction reads. -/
structure MfaFactor where
  provider : String
  factorType : String
  id : String
  deriving DecidableEq, Repr

/-- Label built per factor by `mfa_challenge`:
`f"{d['provider']}_{d['factorType']}_{d['id']}"`. -/
def mkMfaLabel (d : MfaFactor) : String :=
  d.provider ++ "_" ++ d.factorType ++ "_" ++ d.id

/-- Python's substring test `preset_mfa in elem` on strings. -/
def pySubstr (needle hay : String) : Bool :=
  decide (needle.data <:+: hay.data)

/-- Python truthiness of the configured selector: `None` and the empty
string are both falsy in `if preset_mfa:`. -/
def pyTruthyStr : Option String → Bool
  | none => false
  | some s => s != ""

/-- The list comprehension
`[i for i, elem in enumerate(available_mfas) if preset_mfa in elem]`. -/
def matchIndices (preset : String) (avail : List String) : List Nat :=
  (List.range avail.length).filter (fun i => pySubstr preset (avail.getD i ""))

/-- Result of `mfa_index`: interactive fallback
(`user.select_preferred_mfa_index`), a selected index, or the
`sys.exit(1)` on an ambiguous selector. -/
inductive MfaIndexResult where
  | interactive
  | selected (i : Nat)
  | ambiguousExit
  deriving DecidableEq, Repr

/-- `mfa_index(preset_mfa, available_mfas, mfa_options)` — the
`mfa_options` argument only feeds the interactive prompt and is omitted. -/
def mfa_index (preset_mfa : Option String) (available_mfas : List String) :
    MfaIndexResult :=
  let indices := if pyTruthyStr preset_mfa
                 then matchIndices (preset_mfa.getD "") available_mfas
                 else []
  if indices.length = 0 then .interactive
  else if indices.length = 1 then .selected (indices.getD 0 0)
  else .ambiguousExit

/-- C4: with a configured (non-empty) preferred selector and labels built as
`provider_factorType_id`, the matching indices are exactly those whose label
contains the selector as a substring; zero matches falls back to interactive
selection, exactly one match selects that index, more than one match fails
with the ambiguous-selector error, and resolution is deterministic. -/
theorem C4_mfa_selector (preset : String) (factors : List MfaFactor)
    (avail : List String) (hp : preset ≠ "")
    (hl : avail = factors.map mkMfaLabel) :
    (∀ i, i ∈ matchIndices preset avail ↔
        i < avail.length ∧ pySubstr preset (avail.getD i "") = true) ∧
    (matchIndices preset avail = [] →
        mfa_index (some preset) avail = .interactive) ∧
    (∀ i, matchIndices preset avail = [i] →
        mfa_index (some preset) avail = .selected i) ∧
    (2 ≤ (matchIndices preset avail).length →
        mfa_index (some preset) avail = .ambiguousExit) ∧
    mfa_index (some preset) avail = mfa_index (some preset) avail := by
  have ht : pyTruthyStr (some preset) = true := by
    simp [pyTruthyStr, hp]
  refine ⟨?_, ?_, ?_, ?_, rfl⟩
  · intro i
    simp [matchIndices, List.mem_filter, List.mem_range]
  · intro h0
    simp [mfa_index, ht, h0]
  · intro i hi
    simp [mfa_index, ht, hi]
  · intro h2
    have l0 : ¬(matchIndices preset avail).length = 0 := by omega
    have l1 : ¬(matchIndices preset avail).length = 1 := by omega
    simp [mfa_index, ht, l0, l1]

/-- C4 witness: the selector `"push"` against the two labels
`OKTA_push_abc` and `GOOGLE_sms_def` matches exactly the first factor. -/
theorem C4_mfa_selector_witness :
    ("push" : String) ≠ "" ∧
    ["OKTA_push_abc", "GOOGLE_sms_def"] =
      [MfaFactor.mk "OKTA" "push" "abc",
       MfaFactor.mk "GOOGLE" "sms" "def"].map mkMfaLabel ∧
    mfa_index (some "push") ["OKTA_push_abc", "GOOGLE_sms_def"] =
      .selected 0 :=
  ⟨by decide, by decide, by
    have h := C4_mfa_selector "push"
      [MfaFactor.mk "OKTA" "push" "abc", MfaFactor.mk "GOOGLE" "sms" "def"]
      ["OKTA_push_abc", "GOOGLE_sms_def"] (by decide) (by decide)
    exact h.2.2.1 0 (by decide)⟩

/-! ## Shared data model for the SAML claims -/

/-- The fields of the `config.okta` dictionary that this module reads or
writes. -/
structure Config where
  org : String
  username : String
  password : String
  mfa : Option String
  mfa_response : Option String
  oauth_client_id : Option String
  deriving DecidableEq, Repr

/-- A cookie jar: the opaque session artifact handed between steps. -/
abbrev Cookies := List (String × String)

/-- The dict built by `get_saml_request`. -/
structure SamlRequest where
  base_url : String
  post_url : String
  relay_state : String
  request : String
  deriving DecidableEq, Repr

/-- The dict built by `send_saml_request` and consumed by
`send_saml_response`. -/
structure SamlResponseArtifact where
  response : String
  relay_state : String
  post_url : String
  deriving DecidableEq, Repr

/-! ## HTML extraction utilities (okta.py lines 856-949)

The source hands raw HTML text to BeautifulSoup and then walks the parsed
element soup.  The embedding starts from the parse result: an HTML document
is the list of its elements, each with a tag name, attributes, and enclosed
text, and `soup.find(tag, attrs=...)` is the first matching element. -/

structure HtmlElem where
  tag : String
  attrs : List (String × String)
  text : String
  deriving DecidableEq, Repr

abbrev Html := List HtmlElem

/-- `elem.get(attrName)`: attribute lookup, `None` when absent. -/
def attrOf (e : HtmlElem) (attrName : String) : Option String :=
  (e.attrs.find? (fun p => p.1 == attrName)).map (fun p => p.2)

/-- `soup.find(tag, attrs={attrName: attrVal})`. -/
def findElem (doc : Html) (tag attrName attrVal : String) : Option HtmlElem :=
  doc.find? (fun e => e.tag == tag && attrOf e attrName == some attrVal)

/-- Python `str(x)` on an optional value: `str(None)` is the literal string
`"None"`. -/
def strOfOpt : Option String → String
  | none => "None"
  | some s => s

/-- Standard base64 alphabet used by `codecs.decode(..., "base64")`. -/
def b64StdAlphabet : List Char :=
  ("ABCDEFGHIJKLMNOPQRSTUVWXYZabcdefghijklmnopqrstuvwxyz0123456789+/").data

/-- Value of one base64 digit, `none` for padding/whitespace/invalid input
(which the binascii decoder skips). -/
def b64val (c : Char) : Option Nat :=
  b64StdAlphabet.findIdx? (fun a => a == c)

/-- Regroup base64 6-bit values into bytes (groups of four values give three
bytes; a trailing group of two or three gives one or two bytes). -/
def b64regroup : List Nat → List Nat
  | a :: b :: c :: d :: rest =>
      (((a % 64) <<< 2) ||| ((b % 64) >>> 4)) % 256 ::
      (((b % 16) <<< 4) ||| ((c % 64) >>> 2)) % 256 ::
      (((c % 4) <<< 6) ||| (d % 64)) % 256 :: b64regroup rest
  | [a, b] => [(((a % 64) <<< 2) ||| ((b % 64) >>> 4)) % 256]
  | [a, b, c] =>
      [(((a % 64) <<< 2) ||| ((b % 64) >>> 4)) % 256,
       (((b % 16) <<< 4) ||| ((c % 64) >>> 2)) % 256]
  | _ => []

/-- `codecs.decode(s.encode("ascii"), "base64")`: drop non-alphabet
characters (including `=` padding) and regroup into bytes. -/
def b64decodeStd (s : String) : List Nat :=
  b64regroup (s.data.filterMap b64val)

/-- Byte-list to text, as the source's final `.decode("utf-8")`; faithful
for ASCII payloads such as the ones in the claims. -/
def bytesToString (bs : List Nat) : String :=
  String.mk (bs.map Char.ofNat)

/-- `extract_saml_response(html, raw)`: find the first
`<input name="SAMLResponse">`, read its `value`, decode it, and return the
raw base64 blob or the decoded document; `None` when no such element
exists. -/
def extract_saml_response (doc : Html) (raw : Bool) : Option String :=
  match findElem doc "input" "name" "SAMLResponse" with
  | none => none
  | some elem =>
      let saml_base64 := strOfOpt (attrOf elem "value")
      let xml := bytesToString (b64decodeStd saml_base64)
      some (if raw then saml_base64 else xml)

/-- C10: for a document whose first `SAMLResponse` input carries the value
`"QUJD"`, raw extraction returns `"QUJD"` and decoded extraction returns
`"ABC"`; for a document with no such element, extraction returns the empty
result (`None`) rather than an error. -/
theorem C10_saml_extraction :
    (∀ (doc : Html) (e : HtmlElem),
        findElem doc "input" "name" "SAMLResponse" = some e →
        attrOf e "value" = some "QUJD" →
        extract_saml_response doc true = some "QUJD" ∧
        extract_saml_response doc false = some "ABC") ∧
    (∀ doc : Html,
        findElem doc "input" "name" "SAMLResponse" = none →
        ∀ raw, extract_saml_response doc raw = none) := by
  constructor
  · intro doc e h1 h2
    have hr : extract_saml_response doc true = some (strOfOpt (attrOf e "value")) := by
      unfold extract_saml_response
      rw [h1]
      rfl
    have hd : extract_saml_response doc false =
        some (bytesToString (b64decodeStd (strOfOpt (attrOf e "value")))) := by
      unfold extract_saml_response
      rw [h1]
      rfl
    rw [hr, hd, h2]
    exact ⟨rfl, by decide⟩
  · intro doc h raw
    unfold extract_saml_response
    rw [h]

/-- C10 witness: a one-element document with
`<input name="SAMLResponse" value="QUJD">`. -/
theorem C10_saml_extraction_witness :
    findElem [HtmlElem.mk "input" [("name", "SAMLResponse"), ("value", "QUJD")] ""]
        "input" "name" "SAMLResponse" =
      some (HtmlElem.mk "input" [("name", "SAMLResponse"), ("value", "QUJD")] "") ∧
    attrOf (HtmlElem.mk "input" [("name", "SAMLResponse"), ("value", "QUJD")] "")
        "value" = some "QUJD" ∧
    extract_saml_response
        [HtmlElem.mk "input" [("name", "SAMLResponse"), ("value", "QUJD")] ""]
        true = some "QUJD" ∧
    extract_saml_response
        [HtmlElem.mk "input" [("name", "SAMLResponse"), ("value", "QUJD")] ""]
        false = some "ABC" := by
  refine ⟨by decide, by decide, ?_⟩
  exact C10_saml_extraction.1
    [HtmlElem.mk "input" [("name", "SAMLResponse"), ("value", "QUJD")] ""]
    (HtmlElem.mk "input" [("name", "SAMLResponse"), ("value", "QUJD")] "")
    (by decide) (by decide)

/-! ## State-token extraction (`extract_state_token`, okta.py lines 932-949)

The source looks for a `<script>` element whose text matches the pattern
`var stateToken = ...;` (the token between a quote after the equals sign and
the closing quote-semicolon on the same line, the group taken greedily), and
decodes escape sequences in the captured group. -/

/-- The single-quote character, written by code point to keep the marker
strings readable. -/
def quoteChar : Char := Char.ofNat 39

/-- The literal part of the pattern before the captured group. -/
def stateTokenMarker : List Char := ("var stateToken = ").data ++ [quoteChar]

/-- The literal part of the pattern after the captured group. -/
def stateTokenEnd : List Char := [quoteChar, ';']

/-- All indices at which `pat` occurs in `s`. -/
def prefixPositions (pat s : List Char) : List Nat :=
  (List.range (s.length + 1)).filter (fun i => pat.isPrefixOf (s.drop i))

/-- The last index at which `pat` occurs in `s` (the greedy group match
extends to the last closing quote-semicolon). -/
def lastOccurrence (pat s : List Char) : Option Nat :=
  (prefixPositions pat s).getLast?

/-- The rest of the current line (`.` in the pattern does not match a
newline). -/
def lineOf (s : List Char) : List Char := s.takeWhile (fun c => c ≠ Char.ofNat 10)

/-- Attempt the pattern match at the head of `s`: the marker must be a
prefix, and the rest of its line must contain the closing quote-semicolon;
the group is everything up to the last such closing. -/
def scriptTokenMatchAt (s : List Char) : Option (List Char) :=
  if stateTokenMarker.isPrefixOf s then
    let rest := lineOf (s.drop stateTokenMarker.length)
    (lastOccurrence stateTokenEnd rest).map (fun i => rest.take i)
  else none

/-- `pattern.search`: try the match at each position, left to right. -/
def scriptTokenSearch : List Char → Option (List Char)
  | [] => none
  | c :: tl =>
      match scriptTokenMatchAt (c :: tl) with
      | some t => some t
      | none => scriptTokenSearch tl

/-- One hex digit, for the escape decoder. -/
def hexVal (c : Char) : Option Nat :=
  ("0123456789abcdef").data.findIdx? (fun a => a == c) <|>
    ("0123456789ABCDEF").data.findIdx? (fun a => a == c)

/-- `codecs.decode(encoded_token, "unicode-escape")`, for the escape forms
that occur in state tokens: `\\xHH`, `\\uHHHH`, the single-character escapes,
and a literal pass-through for anything else.  The fuel argument only makes
the recursion structural (each step consumes at least one character, so
fuel = length never runs out). -/
def unicodeUnescapeFuel : Nat → List Char → List Char
  | 0, s => s
  | _ + 1, [] => []
  | fuel + 1, c :: rest =>
      if c = Char.ofNat 92 then
        match rest with
        | [] => [c]
        | e :: rest2 =>
            if e = 'x' then
              match rest2 with
              | a :: b :: rest3 =>
                  match hexVal a, hexVal b with
                  | some ha, some hb => Char.ofNat (16 * ha + hb) :: unicodeUnescapeFuel fuel rest3
                  | _, _ => c :: e :: unicodeUnescapeFuel fuel rest2
              | _ => c :: e :: unicodeUnescapeFuel fuel rest2
            else if e = 'u' then
              match rest2 with
              | a :: b :: d :: f :: rest3 =>
                  match hexVal a, hexVal b, hexVal d, hexVal f with
                  | some ha, some hb, some hd, some hf =>
                      Char.ofNat (4096 * ha + 256 * hb + 16 * hd + hf) :: unicodeUnescapeFuel fuel rest3
                  | _, _, _, _ => c :: e :: unicodeUnescapeFuel fuel rest2
              | _ => c :: e :: unicodeUnescapeFuel fuel rest2
            else if e = Char.ofNat 92 then Char.ofNat 92 :: unicodeUnescapeFuel fuel rest2
            else if e = 'n' then Char.ofNat 10 :: unicodeUnescapeFuel fuel rest2
            else if e = 't' then Char.ofNat 9 :: unicodeUnescapeFuel fuel rest2
            else if e = 'r' then Char.ofNat 13 :: unicodeUnescapeFuel fuel rest2
            else if e = quoteChar then quoteChar :: unicodeUnescapeFuel fuel rest2
            else if e = Char.ofNat 34 then Char.ofNat 34 :: unicodeUnescapeFuel fuel rest2
            else c :: e :: unicodeUnescapeFuel fuel rest2
      else c :: unicodeUnescapeFuel fuel rest

/-- The escape decoder at its intended fuel. -/
def unicodeUnescape (s : List Char) : List Char :=
  unicodeUnescapeFuel s.length s

/-- The regex search over one script text, as a `String` function. -/
def stateTokenOfText (text : String) : Option String :=
  (scriptTokenSearch text.data).map (fun t => String.mk t)

/-- `extract_state_token(html)`: find a script element whose text matches
the pattern, then decode the captured group; `None` when no script
matches. -/
def extract_state_token (doc : Html) : Option String :=
  match doc.find? (fun e => e.tag == "script" && (stateTokenOfText e.text).isSome) with
  | none => none
  | some script =>
      match stateTokenOfText script.text with
      | some encoded => some (String.mk (unicodeUnescape encoded.data))
      | none => none

/-! ## Posting the SAML response (`send_saml_response`, okta.py lines 260-326) -/

/-- The two observables of an HTTP reply that `send_saml_response` reads:
the (parsed) body and the reply cookies. -/
structure HttpResponse where
  text : Html
  cookies : Cookies
  deriving Repr

/-- `send_saml_response(config, saml_response)`: POST the SAML response and
relay state to the artifact's post URL; the source then guards the
follow-up with Python truthiness (`if state_token:`, okta.py line 305), so
only a present AND non-empty extracted token triggers the redirect-style
GET to the hardcoded origin `https://newscorpdev2.oktapreview.com` at
`/login/token/redirect`, whose reply cookies are returned; otherwise (no
token, or an empty one) the POST reply's cookies are returned.  The
transport is passed in as the `post`/`get` functions; the `config`
parameter is accepted and never read, exactly as in the source. -/
def send_saml_response
    (post : String → List (String × String) → HttpResponse)
    (get : String → List (String × String) → HttpResponse)
    (config : Config) (saml_response : SamlResponseArtifact) : Cookies :=
  let payload := [("SAMLResponse", saml_response.response),
                  ("RelayState", saml_response.relay_state)]
  let response := post saml_response.post_url payload
  let session_cookies := response.cookies
  let state_token := extract_state_token response.text
  if pyTruthyStr state_token then
    let myorg := "https://newscorpdev2.oktapreview.com"
    let myurl := myorg ++ "/login/token/redirect"
    let myresponse := get myurl [("stateToken", state_token.getD "")]
    myresponse.cookies
  else session_cookies

/-- C7: whenever the relying party reply to the posted SAML response embeds
a (truthy, i.e. non-empty) state token, the follow-up GET goes to the fixed
hardcoded origin and path, regardless of the configured org URL (the whole
`config` is quantified) and of the artifact's post URL, and the returned
session artifact is that follow-up reply's cookies. -/
theorem C7_hardcoded_redirect
    (post get : String → List (String × String) → HttpResponse)
    (config : Config) (sr : SamlResponseArtifact) (tok : String)
    (h : extract_state_token (post sr.post_url
        [("SAMLResponse", sr.response), ("RelayState", sr.relay_state)]).text
        = some tok)
    (hne : tok ≠ "") :
    send_saml_response post get config sr =
      (get ("https://newscorpdev2.oktapreview.com" ++ "/login/token/redirect")
        [("stateToken", tok)]).cookies := by
  have ht : pyTruthyStr (some tok) = true := by
    simp [pyTruthyStr, hne]
  simp only [send_saml_response, h, ht, if_true, Option.getD_some]

/-- A reply document embedding `var stateToken = ...;` with token text
`ABC`, used by the C7 witness. -/
def sampleTokenHtml : Html :=
  [HtmlElem.mk "script" []
    (String.mk (stateTokenMarker ++ ("ABC").data ++ stateTokenEnd))]

/-- C7 witness: a concrete transport whose POST reply embeds the state
token `ABC`; the result is the cookie jar of the GET reply. -/
theorem C7_hardcoded_redirect_witness :
    extract_state_token
        ((fun (_ : String) (_ : List (String × String)) =>
          HttpResponse.mk sampleTokenHtml [("sid", "post-cookie")])
          (SamlResponseArtifact.mk "resp" "relay" "https://sp.example.com/sso").post_url
          [("SAMLResponse", (SamlResponseArtifact.mk "resp" "relay"
              "https://sp.example.com/sso").response),
           ("RelayState", (SamlResponseArtifact.mk "resp" "relay"
              "https://sp.example.com/sso").relay_state)]).text = some "ABC" ∧
    ("ABC" : String) ≠ "" ∧
    send_saml_response
        (fun _ _ => HttpResponse.mk sampleTokenHtml [("sid", "post-cookie")])
        (fun _ _ => HttpResponse.mk [] [("sid", "redirect-cookie")])
        (Config.mk "https://acme.okta.com" "user" "pw" none none none)
        (SamlResponseArtifact.mk "resp" "relay" "https://sp.example.com/sso") =
      [("sid", "redirect-cookie")] := by
  refine ⟨by decide, by decide, ?_⟩
  rw [C7_hardcoded_redirect
    (fun _ _ => HttpResponse.mk sampleTokenHtml [("sid", "post-cookie")])
    (fun _ _ => HttpResponse.mk [] [("sid", "redirect-cookie")])
    (Config.mk "https://acme.okta.com" "user" "pw" none none none)
    (SamlResponseArtifact.mk "resp" "relay" "https://sp.example.com/sso")
    "ABC" (by decide) (by decide)]

/-! ## SAML2 chaining (`saml2_authenticate`, okta.py lines 826-853) -/

/-- The derived configuration handed to the recursive `idp_auth` call:
`saml2_config = deepcopy(config); saml2_config.okta["org"] =
saml_request["base_url"]`.  In the pure embedding the deep copy is a value
copy, so the record update touches only the copy. -/
def saml2_derived_config (config : Config) (saml_request : SamlRequest) : Config :=
  { config with org := saml_request.base_url }

/-- `saml2_authenticate(config, auth_properties)`.  The collaborators are
passed in: `idpAuth` is the recursive orchestrator entry (it may mutate its
own configuration argument, which the embedding renders by returning the
updated copy — the caller discards it, as the source discards all mutations
of the deep copy), and the two SAML exchange steps follow.  The function
returns the session artifact together with the caller's configuration after
the call, so the frame effect on `config` is observable. -/
def saml2_authenticate
    (idpAuth : Config → Cookies × Config)
    (sendReq : SamlRequest → Cookies → SamlResponseArtifact)
    (sendResp : Config → SamlResponseArtifact → Cookies)
    (saml_request : SamlRequest) (config : Config) : Cookies × Config :=
  let saml2_config := saml2_derived_config config saml_request
  let recursive := idpAuth saml2_config
  let saml_response := sendReq saml_request recursive.1
  let session_id := sendResp config saml_response
  (session_id, config)

/-- C9: the recursive call receives a derived copy whose org URL is the
discovered identity provider's base URL while every other field matches the
caller's configuration, and the caller's original configuration (org URL
included) is unchanged when `saml2_authenticate` returns; the session
artifact is the one produced by posting back the SAML response obtained with
the recursive call's cookies. -/
theorem C9_saml2_frame
    (idpAuth : Config → Cookies × Config)
    (sendReq : SamlRequest → Cookies → SamlResponseArtifact)
    (sendResp : Config → SamlResponseArtifact → Cookies)
    (saml_request : SamlRequest) (config : Config) :
    (saml2_authenticate idpAuth sendReq sendResp saml_request config).2 = config ∧
    (saml2_derived_config config saml_request).org = saml_request.base_url ∧
    (saml2_derived_config config saml_request).username = config.username ∧
    (saml2_derived_config config saml_request).password = config.password ∧
    (saml2_derived_config config saml_request).mfa = config.mfa ∧
    (saml2_derived_config config saml_request).mfa_response = config.mfa_response ∧
    (saml2_derived_config config saml_request).oauth_client_id = config.oauth_client_id ∧
    (saml2_authenticate idpAuth sendReq sendResp saml_request config).1 =
      sendResp config (sendReq saml_request
        (idpAuth (saml2_derived_config config saml_request)).1) :=
  ⟨rfl, rfl, rfl, rfl, rfl, rfl, rfl, rfl⟩

/-! ## OAuth2 discovery validation and authorize entry
(`validate_oauth2_configuration`, `get_oauth2_configuration`,
`authorization_code_enabled`, `oauth2_authorize`, okta.py lines 577-644)

The discovery document fetched from `/.well-known/oauth-authorization-server`
is the input; each `sys.exit(1)` becomes an explicit error value. -/

/-- The discovery fields the validation reads; `none` marks an absent key. -/
structure OAuth2Discovery where
  authorization_endpoint : Option String
  token_endpoint : Option String
  grant_types_supported : Option (List String)
  response_types_supported : Option (List String)
  scopes_supported : Option (List String)
  deriving DecidableEq, Repr

/-- The distinct `logger.error` + `sys.exit(1)` failure modes of the OAuth2
configuration path. -/
inductive OAuth2Error where
  /-- "No {item} found in oauth2 configuration." — a mandatory discovery
  field is missing. -/
  | invalidOAuth2Config (item : String)
  /-- "Authorization code grant not found." -/
  | grantNotFound
  /-- "Code response type not found." -/
  | responseTypeNotFound
  /-- "No grant types supported" — the `KeyError` branch of
  `authorization_code_enabled`. -/
  | noGrantTypes
  /-- a failure inside the authorization-code flow itself (callback error,
  handed in as the flow outcome parameter). -/
  | flowFailed
  deriving DecidableEq, Repr

/-- `validate_oauth2_configuration(oauth2_config)`: every mandatory item
must be present, `authorization_code` must be among the supported grant
types and `code` among the supported response types; each violation is a
`sys.exit(1)`. -/
def validate_oauth2_configuration (cfg : OAuth2Discovery) :
    Except OAuth2Error Unit :=
  if cfg.authorization_endpoint = none then
    .error (.invalidOAuth2Config "authorization_endpoint")
  else if cfg.token_endpoint = none then
    .error (.invalidOAuth2Config "token_endpoint")
  else if cfg.grant_types_supported = none then
    .error (.invalidOAuth2Config "grant_types_supported")
  else if cfg.response_types_supported = none then
    .error (.invalidOAuth2Config "response_types_supported")
  else if cfg.scopes_supported = none then
    .error (.invalidOAuth2Config "scopes_supported")
  else if ¬(cfg.grant_types_supported.getD []).contains "authorization_code" then
    .error .grantNotFound
  else if ¬(cfg.response_types_supported.getD []).contains "code" then
    .error .responseTypeNotFound
  else .ok ()

/-- `get_oauth2_configuration(url)` with the fetched document passed in:
validate, then return the document. -/
def get_oauth2_configuration (cfg : OAuth2Discovery) :
    Except OAuth2Error OAuth2Discovery :=
  match validate_oauth2_configuration cfg with
  | .error e => .error e
  | .ok _ => .ok cfg

/-- `authorization_code_enabled(org_url, oauth2_config)`: `False` when the
grant list lacks `authorization_code`, `sys.exit(1)` when the key is
missing altogether (the `KeyError` branch), `True` otherwise. -/
def authorization_code_enabled (cfg : OAuth2Discovery) :
    Except OAuth2Error Bool :=
  match cfg.grant_types_supported with
  | none => .error .noGrantTypes
  | some grants => .ok (grants.contains "authorization_code")

/-- `oauth2_authorize(config, session_cookies)` with the discovery document
and the outcome of `authorization_code_flow` (whose network exchange and
randomness live outside this function) passed in.  Note the source returns
`session_cookies` on every successful path — the flow token is computed and
then dropped ("for now, pass thru"). -/
def oauth2_authorize (cfg : OAuth2Discovery)
    (flowOutcome : Except OAuth2Error String) (session_cookies : Cookies) :
    Except OAuth2Error Cookies :=
  match get_oauth2_configuration cfg with
  | .error e => .error e
  | .ok oauth2_config =>
      match authorization_code_enabled oauth2_config with
      | .error e => .error e
      | .ok true =>
          match flowOutcome with
          | .error e => .error e
          | .ok _authz_token => .ok session_cookies
      | .ok false => .ok session_cookies

/-- All five mandatory discovery fields are present. -/
def mandatoryPresent (cfg : OAuth2Discovery) : Prop :=
  cfg.authorization_endpoint ≠ none ∧ cfg.token_endpoint ≠ none ∧
  cfg.grant_types_supported ≠ none ∧ cfg.response_types_supported ≠ none ∧
  cfg.scopes_supported ≠ none

instance (cfg : OAuth2Discovery) : Decidable (mandatoryPresent cfg) := by
  unfold mandatoryPresent
  infer_instance

deriving instance DecidableEq for Except

/-- Validation succeeds exactly when every mandatory field is present and
the grant/response-type lists carry the required entries. -/
theorem validate_ok_iff (cfg : OAuth2Discovery) :
    validate_oauth2_configuration cfg = .ok () ↔
      (mandatoryPresent cfg ∧
       (cfg.grant_types_supported.getD []).contains "authorization_code" = true ∧
       (cfg.response_types_supported.getD []).contains "code" = true) := by
  unfold validate_oauth2_configuration mandatoryPresent
  by_cases h1 : cfg.authorization_endpoint = none <;>
   by_cases h2 : cfg.token_endpoint = none <;>
    by_cases h3 : cfg.grant_types_supported = none <;>
     by_cases h4 : cfg.response_types_supported = none <;>
      by_cases h5 : cfg.scopes_supported = none <;>
       by_cases h6 : "authorization_code" ∈ cfg.grant_types_supported.getD [] <;>
        by_cases h7 : "code" ∈ cfg.response_types_supported.getD [] <;>
         simp [h1, h2, h3, h4, h5, h6, h7]

/-- C1 counterexample: a discovery document with every mandatory field
present whose `grant_types_supported` lacks `authorization_code`.  The
claim says `oauth2_authorize` skips the flow and passes the prior session
artifact through; the code instead hard-fails inside
`validate_oauth2_configuration` ("Authorization code grant not found.",
`sys.exit(1)`), so the skip branch is never reached. -/
theorem C1_counterexample :
    mandatoryPresent
      (OAuth2Discovery.mk (some "https://acme.okta.com/oauth2/v1/authorize")
        (some "https://acme.okta.com/oauth2/v1/token")
        (some ["implicit"]) (some ["code"]) (some ["openid"])) ∧
    oauth2_authorize
      (OAuth2Discovery.mk (some "https://acme.okta.com/oauth2/v1/authorize")
        (some "https://acme.okta.com/oauth2/v1/token")
        (some ["implicit"]) (some ["code"]) (some ["openid"]))
      (.ok "flow-token") [("sid", "prior")] = .error .grantNotFound ∧
    oauth2_authorize
      (OAuth2Discovery.mk (some "https://acme.okta.com/oauth2/v1/authorize")
        (some "https://acme.okta.com/oauth2/v1/token")
        (some ["implicit"]) (some ["code"]) (some ["openid"]))
      (.ok "flow-token") [("sid", "prior")] ≠ .ok [("sid", "prior")] := by
  refine ⟨by decide, by decide, by decide⟩

/-- C1 (amended): a discovery document whose `grant_types_supported` lacks
`authorization_code` makes `oauth2_authorize` hard-fail during validation
(grant-not-found, `sys.exit(1)`), exactly like a missing mandatory field
fails with the invalid-configuration error — the skip/pass-through branch is
unreachable; when validation succeeds and the flow completes, the function
returns the prior session artifact unchanged (pass-through). -/
theorem C1_grant_missing_hard_fails (cfg : OAuth2Discovery)
    (flowOutcome : Except OAuth2Error String) (session_cookies : Cookies)
    (grants : List String)
    (hm : mandatoryPresent cfg)
    (hg : cfg.grant_types_supported = some grants)
    (hno : grants.contains "authorization_code" = false) :
    oauth2_authorize cfg flowOutcome session_cookies = .error .grantNotFound ∧
    (∀ cfg2 tok, validate_oauth2_configuration cfg2 = .ok () →
        flowOutcome = .ok tok →
        oauth2_authorize cfg2 flowOutcome session_cookies = .ok session_cookies) ∧
    (∀ cfg3 : OAuth2Discovery, cfg3.authorization_endpoint ≠ none →
        cfg3.token_endpoint = none →
        oauth2_authorize cfg3 flowOutcome session_cookies =
          .error (.invalidOAuth2Config "token_endpoint")) := by
  obtain ⟨h1, h2, h3, h4, h5⟩ := hm
  refine ⟨?_, ?_, ?_⟩
  · have hv : validate_oauth2_configuration cfg = .error .grantNotFound := by
      have hval : ¬ validate_oauth2_configuration cfg = .ok () := by
        rw [validate_ok_iff]
        rintro ⟨-, hcontains, -⟩
        rw [hg, Option.getD_some, hno] at hcontains
        exact Bool.false_ne_true hcontains
      unfold validate_oauth2_configuration at hval ⊢
      rw [if_neg h1, if_neg h2, if_neg h3, if_neg h4, if_neg h5] at hval ⊢
      rw [hg, Option.getD_some, hno] at hval ⊢
      simp at hval ⊢
    simp only [oauth2_authorize, get_oauth2_configuration, hv]
  · intro cfg2 tok hval hflow
    obtain ⟨⟨g1, g2, g3, g4, g5⟩, hgr, hresp⟩ := (validate_ok_iff cfg2).mp hval
    obtain ⟨grants2, hg2⟩ := Option.ne_none_iff_exists'.mp g3
    have hgr2 : grants2.contains "authorization_code" = true := by
      rw [hg2, Option.getD_some] at hgr
      exact hgr
    have hen : authorization_code_enabled cfg2 = .ok true := by
      simp only [authorization_code_enabled, hg2, hgr2]
    simp only [oauth2_authorize, get_oauth2_configuration, hval, hen, hflow]
  · intro cfg3 ha ht
    have hv3 : validate_oauth2_configuration cfg3 =
        .error (.invalidOAuth2Config "token_endpoint") := by
      unfold validate_oauth2_configuration
      rw [if_neg ha, if_pos ht]
    simp only [oauth2_authorize, get_oauth2_configuration, hv3]

/-- C1 witness: instantiates the amended theorem at the counterexample
document. -/
theorem C1_grant_missing_hard_fails_witness :
    (mandatoryPresent
        (OAuth2Discovery.mk (some "https://a.example.com")
          (some "https://t.example.com") (some ["implicit"])
          (some ["code"]) (some ["openid"])) ∧
      (OAuth2Discovery.mk (some "https://a.example.com")
          (some "https://t.example.com") (some ["implicit"])
          (some ["code"]) (some ["openid"])).grant_types_supported =
        some ["implicit"] ∧
      (["implicit"] : List String).contains "authorization_code" = false) ∧
    oauth2_authorize
        (OAuth2Discovery.mk (some "https://a.example.com")
          (some "https://t.example.com") (some ["implicit"])
          (some ["code"]) (some ["openid"]))
        (.ok "tok") [("sid", "prior")] = .error .grantNotFound :=
  ⟨⟨by decide, by decide, by decide⟩,
    (C1_grant_missing_hard_fails
      (OAuth2Discovery.mk (some "https://a.example.com")
        (some "https://t.example.com") (some ["implicit"])
        (some ["code"]) (some ["openid"]))
      (.ok "tok") [("sid", "prior")] ["implicit"]
      (by decide) (by decide) (by decide)).1⟩

/-! ## MFA challenge dispatch (`mfa_provider_type`, okta.py lines 952-1000)

The dispatcher receives the challenge-initiation response and produces the
final verification dict from one of three provider branches (DUO, Okta
push, Okta/Google one-time code), or terminates with `sys.exit(1)` for any
other provider/factor combination.  After the branch, the source checks
`if "sessionToken" not in mfa_verify:` and calls `logger.error(...)` — but
there is no `sys.exit` there, and execution falls through to
`return mfa_verify["sessionToken"]`, which raises an uncaught `KeyError`
when the key is missing. -/

/-- A JSON object restricted to the string-valued keys the dispatcher
reads. -/
abbrev JsonDict := List (String × String)

/-- Python `d[k]` / `k in d`. -/
def dictLookup (d : JsonDict) (k : String) : Option String :=
  (d.find? (fun p => p.1 == k)).map (fun p => p.2)

/-- Outcome of `mfa_provider_type`: a returned session token, the clean
`sys.exit(1)` of the unsupported-provider branch, or an uncaught
`KeyError` crash. -/
inductive MfaOutcome where
  | token (t : String)
  | exitUnsupportedProvider
  | keyError (k : String)
  deriving DecidableEq, Repr

/-- The provider/factor dispatch: which branch produces the final
verification dict.  The per-branch network results are passed in
(`duoVerify` for the DUO callback POST, `totpVerify` for the one-time-code
POST, `pushVerify` for the final push-poll response); `none` is the
unsupported-provider branch. -/
def mfa_verify_of (mfa_provider : String) (factor_type : Option String)
    (duoVerify totpVerify pushVerify : JsonDict) : Option JsonDict :=
  if mfa_provider = "DUO" then some duoVerify
  else if mfa_provider = "OKTA" ∧ factor_type = some "push" then some pushVerify
  else if (mfa_provider = "OKTA" ∨ mfa_provider = "GOOGLE") ∧
      (factor_type = some "token:software:totp" ∨ factor_type = some "sms") then
    some totpVerify
  else none

/-- `mfa_provider_type(...)`: dispatch, then return
`mfa_verify["sessionToken"]` — logging (but not exiting) first when the key
is absent, so the missing-key case ends in the `KeyError` crash. -/
def mfa_provider_type (mfa_provider : String) (factor_type : Option String)
    (duoVerify totpVerify pushVerify : JsonDict) : MfaOutcome :=
  match mfa_verify_of mfa_provider factor_type duoVerify totpVerify pushVerify with
  | none => .exitUnsupportedProvider
  | some mfa_verify =>
      match dictLookup mfa_verify "sessionToken" with
      | some t => .token t
      | none => .keyError "sessionToken"

/-- C2: a final MFA verification response without a session token makes the
dispatcher crash with an uncaught `KeyError` — it does not fail cleanly
with the MFA-verification-failed error (the message is logged, but the
`sys.exit` is missing), contradicting the claim.  Shown at the failing
inputs: an empty DUO verification response and an empty SMS verification
response; a response carrying the token returns it. -/
theorem C2_missing_token_keyerror :
    mfa_provider_type "DUO" none [] [] [] = .keyError "sessionToken" ∧
    mfa_provider_type "GOOGLE" (some "sms") [] [("status", "MFA_CHALLENGE")] []
      = .keyError "sessionToken" ∧
    mfa_provider_type "DUO" none [] [] [] ≠ .exitUnsupportedProvider ∧
    mfa_provider_type "DUO" none [("sessionToken", "tok")] [] [] = .token "tok" := by
  refine ⟨by decide, by decide, by decide, by decide⟩

/-! ## PKCE verifier and challenge
(`get_pkce_code_verifier`, `get_pkce_code_challenge`, okta.py lines 441-467)

`base64.urlsafe_b64encode` over byte lists, with explicit `=` padding. -/

/-- One character of the URL-safe base64 alphabet
(`A-Z`, `a-z`, `0-9`, `-`, `_`). -/
def b64urlChar (n : Nat) : Char :=
  if n < 26 then Char.ofNat (65 + n)
  else if n < 52 then Char.ofNat (97 + (n - 26))
  else if n < 62 then Char.ofNat (48 + (n - 52))
  else if n = 62 then Char.ofNat 45
  else Char.ofNat 95

/-- The four encoded characters of one full three-byte group. -/
def b64chunk (b1 b2 b3 : Nat) : List Char :=
  [b64urlChar ((b1 % 256) >>> 2),
   b64urlChar (((b1 % 4) <<< 4) ||| ((b2 % 256) >>> 4)),
   b64urlChar (((b2 % 16) <<< 2) ||| ((b3 % 256) >>> 6)),
   b64urlChar (b3 % 64)]

/-- The two encoded characters of a trailing one-byte group. -/
def b64tail1 (b1 : Nat) : List Char :=
  [b64urlChar ((b1 % 256) >>> 2), b64urlChar ((b1 % 4) <<< 4)]

/-- The three encoded characters of a trailing two-byte group. -/
def b64tail2 (b1 b2 : Nat) : List Char :=
  [b64urlChar ((b1 % 256) >>> 2),
   b64urlChar (((b1 % 4) <<< 4) ||| ((b2 % 256) >>> 4)),
   b64urlChar ((b2 % 16) <<< 2)]

/-- `base64.urlsafe_b64encode` on a byte list, producing the encoded
characters with `=` padding. -/
def b64encode : List Nat → List Char
  | b1 :: b2 :: b3 :: rest => b64chunk b1 b2 b3 ++ b64encode rest
  | [b1] => b64tail1 b1 ++ ['=', '=']
  | [b1, b2] => b64tail2 b1 b2 ++ ['=']
  | [] => []

/-- Alphabet characters are never the padding character. -/
theorem b64urlChar_ne_eq (n : Nat) : b64urlChar n ≠ '=' := by
  by_cases h : n < 64
  · have hall : ∀ m, m < 64 → b64urlChar m ≠ '=' := by decide
    exact hall n h
  · unfold b64urlChar
    rw [if_neg (by omega), if_neg (by omega), if_neg (by omega),
      if_neg (by omega)]
    decide

/-- No character of a full chunk is the padding character. -/
theorem b64chunk_ne_eq (b1 b2 b3 : Nat) : ∀ c ∈ b64chunk b1 b2 b3, c ≠ '=' := by
  intro c hc
  simp only [b64chunk, List.mem_cons, List.not_mem_nil, or_false] at hc
  rcases hc with rfl | rfl | rfl | rfl <;> exact b64urlChar_ne_eq _

/-- No character of a one-byte tail is the padding character. -/
theorem b64tail1_ne_eq (b1 : Nat) : ∀ c ∈ b64tail1 b1, c ≠ '=' := by
  intro c hc
  simp only [b64tail1, List.mem_cons, List.not_mem_nil, or_false] at hc
  rcases hc with rfl | rfl <;> exact b64urlChar_ne_eq _

/-- No character of a two-byte tail is the padding character. -/
theorem b64tail2_ne_eq (b1 b2 : Nat) : ∀ c ∈ b64tail2 b1 b2, c ≠ '=' := by
  intro c hc
  simp only [b64tail2, List.mem_cons, List.not_mem_nil, or_false] at hc
  rcases hc with rfl | rfl | rfl <;> exact b64urlChar_ne_eq _

/-- Structure of the encoder output: a padding-free body followed by
exactly the right number of `=` characters, with total length
`4 * ceil(len/3)`. -/
theorem b64encode_shape : ∀ bs : List Nat,
    ∃ body : List Char,
      b64encode bs = body ++ List.replicate ((3 - bs.length % 3) % 3) '=' ∧
      (∀ c ∈ body, c ≠ '=') ∧
      body.length + (3 - bs.length % 3) % 3 = 4 * ((bs.length + 2) / 3)
  | [] => ⟨[], rfl, by simp, rfl⟩
  | [b1] => ⟨b64tail1 b1, rfl, b64tail1_ne_eq b1, by
      simp only [b64tail1, List.length_cons, List.length_nil]⟩
  | [b1, b2] => ⟨b64tail2 b1 b2, rfl, b64tail2_ne_eq b1 b2, by
      simp only [b64tail2, List.length_cons, List.length_nil]⟩
  | b1 :: b2 :: b3 :: rest => by
      obtain ⟨body, hb, hchars, hlenb⟩ := b64encode_shape rest
      refine ⟨b64chunk b1 b2 b3 ++ body, ?_, ?_, ?_⟩
      · have hm : (3 - (b1 :: b2 :: b3 :: rest).length % 3) % 3
            = (3 - rest.length % 3) % 3 := by
          simp only [List.length_cons]
          omega
        rw [hm]
        show b64chunk b1 b2 b3 ++ b64encode rest = _
        rw [hb, List.append_assoc]
      · intro c hc
        rcases List.mem_append.mp hc with h | h
        · exact b64chunk_ne_eq b1 b2 b3 c h
        · exact hchars c h
      · simp only [List.length_append, List.length_cons, b64chunk,
          List.length_nil]
        omega

/-- The character class kept by `re.sub("[^a-zA-Z0-9]+", "", ...)`. -/
def isAsciiAlnum (c : Char) : Bool :=
  decide (('A' ≤ c ∧ c ≤ 'Z') ∨ ('a' ≤ c ∧ c ≤ 'z') ∨ ('0' ≤ c ∧ c ≤ '9'))

/-- `get_pkce_code_verifier()`: base64-url-encode 40 random bytes (passed
in for `os.urandom(40)`), then strip every character outside `[a-zA-Z0-9]`
(this removes the `=` padding but also any `-` and `_` the encoding
produced). -/
def get_pkce_code_verifier (randomBytes : List Nat) : String :=
  String.mk ((b64encode randomBytes).filter isAsciiAlnum)

/-- C5 counterexample: when `os.urandom(40)` returns forty `0xFF` bytes,
every full base64 group encodes to `_` and is stripped, leaving a verifier
of length 1 — far below the claimed minimum of 43. -/
theorem C5_counterexample :
    (get_pkce_code_verifier (List.replicate 40 255)).length = 1 ∧
    ¬ 43 ≤ (get_pkce_code_verifier (List.replicate 40 255)).length := by
  refine ⟨by decide, by decide⟩

/-- C5 (amended): every verifier produced from a 40-byte random input is
URL-safe — composed only of `[A-Za-z0-9]` — and has length at most 54
(hence at most 128); the claimed lower bound of 43 is not guaranteed, as it
fails whenever the encoding contains more than eleven `-`/`_`
characters. -/
theorem C5_verifier_urlsafe (randomBytes : List Nat)
    (hlen : randomBytes.length = 40) :
    (∀ c ∈ (get_pkce_code_verifier randomBytes).data, isAsciiAlnum c = true) ∧
    (get_pkce_code_verifier randomBytes).length ≤ 54 ∧
    (get_pkce_code_verifier randomBytes).length ≤ 128 := by
  obtain ⟨body, hb, hchars, hlenb⟩ := b64encode_shape randomBytes
  have hb54 : body.length = 54 := by
    rw [hlen] at hlenb
    omega
  have hdata : (get_pkce_code_verifier randomBytes).data
      = (b64encode randomBytes).filter isAsciiAlnum := rfl
  have hfilterlen : ((b64encode randomBytes).filter isAsciiAlnum).length ≤ 54 := by
    rw [hb, List.filter_append]
    have hrep : ((List.replicate ((3 - randomBytes.length % 3) % 3) '=').filter
        isAsciiAlnum).length = 0 := by
      rw [hlen]
      decide
    rw [List.length_append, hrep]
    have := List.length_filter_le isAsciiAlnum body
    omega
  refine ⟨?_, ?_, ?_⟩
  · intro c hc
    rw [hdata] at hc
    exact (List.mem_filter.mp hc).2
  · show (get_pkce_code_verifier randomBytes).data.length ≤ 54
    rw [hdata]
    exact hfilterlen
  · show (get_pkce_code_verifier randomBytes).data.length ≤ 128
    rw [hdata]
    omega

/-- C5 witness: forty zero bytes give the all-`A` verifier of length 54. -/
theorem C5_verifier_urlsafe_witness :
    (List.replicate 40 0).length = 40 ∧
    (get_pkce_code_verifier (List.replicate 40 0)).length ≤ 54 :=
  ⟨by decide, (C5_verifier_urlsafe (List.replicate 40 0) (by decide)).2.1⟩

/-! ## PKCE code challenge (`get_pkce_code_challenge`, okta.py lines 441-455)

`hashlib.sha256` is embedded as the full FIPS-180-4 computation over byte
lists with `Nat` words reduced modulo `2^32`; the digest is then
URL-safe-base64 encoded and the source removes every `=` with
`str.replace("=", "")`. -/

/-- `2^32`, the word modulus. -/
def M32 : Nat := 4294967296

/-- 32-bit right rotation. -/
def rotr32 (n x : Nat) : Nat :=
  ((x >>> n) ||| (x <<< (32 - n))) % M32

/-- The SHA-256 round constants. -/
def sha256K : List Nat :=
  [1116352408, 1899447441, 3049323471, 3921009573, 961987163,
   1508970993, 2453635748, 2870763221, 3624381080, 310598401,
   607225278, 1426881987, 1925078388, 2162078206, 2614888103,
   3248222580, 3835390401, 4022224774, 264347078, 604807628,
   770255983, 1249150122, 1555081692, 1996064986, 2554220882,
   2821834349, 2952996808, 3210313671, 3336571891, 3584528711,
   113926993, 338241895, 666307205, 773529912, 1294757372,
   1396182291, 1695183700, 1986661051, 2177026350, 2456956037,
   2730485921, 2820302411, 3259730800, 3345764771, 3516065817,
   3600352804, 4094571909, 275423344, 430227734, 506948616,
   659060556, 883997877, 958139571, 1322822218, 1537002063,
   1747873779, 1955562222, 2024104815, 2227730452, 2361852424,
   2428436474, 2756734187, 3204031479, 3329325298]

/-- The SHA-256 initial hash value. -/
def sha256H0 : List Nat :=
  [1779033703, 3144134277, 1013904242, 2773480762,
   1359893119, 2600822924, 528734635, 1541459225]

/-- Uppercase sigma-0. -/
def bigSigma0 (x : Nat) : Nat := rotr32 2 x ^^^ rotr32 13 x ^^^ rotr32 22 x

/-- Uppercase sigma-1. -/
def bigSigma1 (x : Nat) : Nat := rotr32 6 x ^^^ rotr32 11 x ^^^ rotr32 25 x

/-- Lowercase sigma-0. -/
def smallSigma0 (x : Nat) : Nat := rotr32 7 x ^^^ rotr32 18 x ^^^ (x >>> 3)

/-- Lowercase sigma-1. -/
def smallSigma1 (x : Nat) : Nat := rotr32 17 x ^^^ rotr32 19 x ^^^ (x >>> 10)

/-- The choice function. -/
def chFun (x y z : Nat) : Nat := (x &&& y) ^^^ ((x ^^^ (M32 - 1)) &&& z)

/-- The majority function. -/
def majFun (x y z : Nat) : Nat := (x &&& y) ^^^ (x &&& z) ^^^ (y &&& z)

/-- Big-endian byte expansion of a value into `n` bytes. -/
def beBytes (n v : Nat) : List Nat :=
  (List.range n).map (fun i => (v >>> (8 * (n - 1 - i))) % 256)

/-- SHA-256 message padding. -/
def sha256pad (msg : List Nat) : List Nat :=
  let L := msg.length
  let k := (64 + 56 - (L + 1) % 64) % 64
  msg ++ [128] ++ List.replicate k 0 ++ beBytes 8 (8 * L)

/-- Pack bytes into big-endian 32-bit words. -/
def toWords : List Nat → List Nat
  | a :: b :: c :: d :: rest =>
      (((a % 256) <<< 24) ||| ((b % 256) <<< 16) ||| ((c % 256) <<< 8) |||
        (d % 256)) :: toWords rest
  | _ => []

/-- Extend the 16 block words to the 64-entry message schedule. -/
def extendWords : Nat → List Nat → List Nat
  | 0, w => w
  | fuel + 1, w =>
      let n := w.length
      let nw := (smallSigma1 (w.getD (n - 2) 0) + w.getD (n - 7) 0 +
                 smallSigma0 (w.getD (n - 15) 0) + w.getD (n - 16) 0) % M32
      extendWords fuel (w ++ [nw])

/-- One compression round on the eight-word working state. -/
def sha256round (st : List Nat) (kw : Nat × Nat) : List Nat :=
  let a := st.getD 0 0
  let b := st.getD 1 0
  let c := st.getD 2 0
  let d := st.getD 3 0
  let e := st.getD 4 0
  let f := st.getD 5 0
  let g := st.getD 6 0
  let h := st.getD 7 0
  let t1 := (h + bigSigma1 e + chFun e f g + kw.1 + kw.2) % M32
  let t2 := (bigSigma0 a + majFun a b c) % M32
  [(t1 + t2) % M32, a, b, c, (d + t1) % M32, e, f, g]

/-- Compress one 64-byte block into the hash state. -/
def sha256compress (h : List Nat) (block : List Nat) : List Nat :=
  let w := extendWords 48 (toWords block)
  let st := (sha256K.zip w).foldl sha256round h
  (h.zip st).map (fun p => (p.1 + p.2) % M32)

/-- Fold the compression over all blocks (the fuel is the byte count, which
bounds the number of blocks). -/
def sha256blocks : Nat → List Nat → List Nat → List Nat
  | 0, _, h => h
  | fuel + 1, bytes, h =>
      match bytes with
      | [] => h
      | _ => sha256blocks fuel (bytes.drop 64) (sha256compress h (bytes.take 64))

/-- `hashlib.sha256(...).digest()` over a byte list. -/
def sha256 (msg : List Nat) : List Nat :=
  let padded := sha256pad msg
  let hh := sha256blocks padded.length padded sha256H0
  (hh.map (beBytes 4)).flatten

set_option maxRecDepth 4096 in
/-- Sanity check of the embedding against the FIPS test vector for
`"abc"`. -/
theorem sha256_abc :
    sha256 [97, 98, 99] =
      [186, 120, 22, 191, 143, 1, 207, 234,
       65, 65, 64, 222, 93, 174, 34, 35,
       176, 3, 97, 163, 150, 23, 122, 156,
       180, 16, 255, 97, 242, 0, 21, 173] := by
  decide

/-- Each round produces an eight-word state. -/
theorem foldl_sha256round_length : ∀ (l : List (Nat × Nat)) (st : List Nat),
    st.length = 8 → (l.foldl sha256round st).length = 8
  | [], _, h => h
  | _ :: rest, st, _ => foldl_sha256round_length rest (sha256round st _) rfl

/-- Compression preserves the eight-word state length. -/
theorem sha256compress_length (h block : List Nat) (hh : h.length = 8) :
    (sha256compress h block).length = 8 := by
  have hst := foldl_sha256round_length
    (sha256K.zip (extendWords 48 (toWords block))) h hh
  simp only [sha256compress, List.length_map, List.length_zip, hh, hst,
    min_self]

/-- The block fold preserves the eight-word state length. -/
theorem sha256blocks_length : ∀ (fuel : Nat) (bytes h : List Nat),
    h.length = 8 → (sha256blocks fuel bytes h).length = 8
  | 0, _, _, hh => hh
  | _ + 1, [], _, hh => hh
  | fuel + 1, b :: rest, h, hh =>
      sha256blocks_length fuel ((b :: rest).drop 64)
        (sha256compress h ((b :: rest).take 64))
        (sha256compress_length h _ hh)

/-- Serialising a word list gives four bytes per word. -/
theorem flatten_beBytes_length (l : List Nat) :
    ((l.map (beBytes 4)).flatten).length = 4 * l.length := by
  induction l with
  | nil => rfl
  | cons x rest ih =>
      have hb : (beBytes 4 x).length = 4 := by simp [beBytes]
      simp only [List.map_cons, List.flatten_cons, List.length_append, ih, hb,
        List.length_cons]
      omega

/-- A SHA-256 digest is always 32 bytes. -/
theorem sha256_length (msg : List Nat) : (sha256 msg).length = 32 := by
  simp only [sha256]
  rw [flatten_beBytes_length,
    sha256blocks_length (sha256pad msg).length (sha256pad msg) sha256H0 rfl]

/-- The spec's "unpadded" reading: remove the trailing `=` padding. -/
def stripTrailingPadding (l : List Char) : List Char :=
  (l.reverse.dropWhile (fun c => c == '=')).reverse

/-- Dropping leading padding characters skips exactly the replicated
block. -/
theorem dropWhile_eq_replicate_append (k : Nat) (l : List Char) :
    (List.replicate k '=' ++ l).dropWhile (fun c => c == '=') =
      l.dropWhile (fun c => c == '=') := by
  induction k with
  | zero => rfl
  | succ n ih => simp [List.replicate_succ, List.dropWhile_cons, ih]

/-- A list with no padding characters is untouched by the drop. -/
theorem dropWhile_eq_self_of_ne (l : List Char) (hb : ∀ c ∈ l, c ≠ '=') :
    l.dropWhile (fun c => c == '=') = l := by
  cases l with
  | nil => rfl
  | cons a t =>
      rw [List.dropWhile_cons, if_neg]
      simp only [beq_iff_eq]
      exact hb a (List.mem_cons_self a t)

/-- Stripping trailing padding from `body ++ padding` recovers the body. -/
theorem stripTrailing_spec (body : List Char) (k : Nat)
    (hb : ∀ c ∈ body, c ≠ '=') :
    stripTrailingPadding (body ++ List.replicate k '=') = body := by
  unfold stripTrailingPadding
  rw [List.reverse_append, List.reverse_replicate, dropWhile_eq_replicate_append,
    dropWhile_eq_self_of_ne, List.reverse_reverse]
  intro c hc
  exact hb c (List.mem_reverse.mp hc)

/-- The source's `replace("=", "")` on `body ++ padding` also recovers the
body. -/
theorem filter_ne_append_pad (body : List Char) (k : Nat)
    (hb : ∀ c ∈ body, c ≠ '=') :
    (body ++ List.replicate k '=').filter (fun c => c != '=') = body := by
  rw [List.filter_append]
  have h1 : body.filter (fun c => c != '=') = body := by
    rw [List.filter_eq_self]
    intro a ha
    simp [hb a ha]
  have h2 : (List.replicate k '=').filter (fun c => c != '=') = [] := by
    induction k with
    | zero => rfl
    | succ n ih => simp [List.replicate_succ, List.filter_cons, ih]
  rw [h1, h2, List.append_nil]

/-- `str.encode("utf-8")`: the UTF-8 bytes of a string. -/
def utf8Bytes (s : String) : List Nat :=
  s.data.flatMap (fun c =>
    let n := c.toNat
    if n < 128 then [n]
    else if n < 2048 then [192 + n / 64, 128 + n % 64]
    else if n < 65536 then [224 + n / 4096, 128 + (n / 64) % 64, 128 + n % 64]
    else [240 + n / 262144, 128 + (n / 4096) % 64, 128 + (n / 64) % 64,
          128 + n % 64])

/-- `get_pkce_code_challenge(code_verifier)`: URL-safe base64 of the
SHA-256 digest of the verifier's UTF-8 bytes, with every `=` removed by
`replace("=", "")`. -/
def get_pkce_code_challenge (code_verifier : String) : String :=
  String.mk ((b64encode (sha256 (utf8Bytes code_verifier))).filter
    (fun c => c != '='))

/-- Modelled from the spec wording for comparison: the same encoding with
the trailing padding removed ("URL-safe base64, unpadded"). -/
def pkce_challenge_spec (code_verifier : String) : String :=
  String.mk (stripTrailingPadding (b64encode (sha256 (utf8Bytes code_verifier))))

/-- C6: for every PKCE verifier of length 43-128 over `[A-Za-z0-9]`, the
derived challenge equals the unpadded URL-safe base64 encoding of the
SHA-256 digest of the verifier's UTF-8 bytes (the `replace("=", "")` of the
source and the padding-strip of the spec coincide, because `=` occurs only
as trailing padding), and the derivation is deterministic. -/
theorem C6_pkce_challenge (v : String) (h1 : 43 ≤ v.length)
    (h2 : v.length ≤ 128) (h3 : ∀ c ∈ v.data, isAsciiAlnum c = true) :
    get_pkce_code_challenge v = pkce_challenge_spec v ∧
    get_pkce_code_challenge v = get_pkce_code_challenge v := by
  refine ⟨?_, rfl⟩
  obtain ⟨body, hb, hchars, hlenb⟩ := b64encode_shape (sha256 (utf8Bytes v))
  unfold get_pkce_code_challenge pkce_challenge_spec
  rw [hb, filter_ne_append_pad body _ hchars, stripTrailing_spec body _ hchars]

/-- C6 witness: a 43-character alphanumeric verifier. -/
theorem C6_pkce_challenge_witness :
    (43 ≤ ("a0a0a0a0a0a0a0a0a0a0a0a0a0a0a0a0a0a0a0a0a0a" : String).length ∧
      ("a0a0a0a0a0a0a0a0a0a0a0a0a0a0a0a0a0a0a0a0a0a" : String).length ≤ 128 ∧
      ∀ c ∈ ("a0a0a0a0a0a0a0a0a0a0a0a0a0a0a0a0a0a0a0a0a0a" : String).data,
        isAsciiAlnum c = true) ∧
    get_pkce_code_challenge "a0a0a0a0a0a0a0a0a0a0a0a0a0a0a0a0a0a0a0a0a0a" =
      pkce_challenge_spec "a0a0a0a0a0a0a0a0a0a0a0a0a0a0a0a0a0a0a0a0a0a" :=
  ⟨⟨by decide, by decide, by decide⟩,
    (C6_pkce_challenge "a0a0a0a0a0a0a0a0a0a0a0a0a0a0a0a0a0a0a0a0a0a"
      (by decide) (by decide) (by decide)).1⟩

end Tokendito
